import Mathlib

/-!
Verification development for the pva2pva scalar-variant and QSRV option
semantics.

The main object is `AnyScalar` (src/common/anyscalar.h): a type-safe variant
union holding any one of the PVD scalar types, or nothing.  The C++ class
stores a discriminating tag `_stype` (with the out-of-band value
`(ScalarType)-1` meaning "no value") together with a raw storage blob
`_wrap.blob` large enough for the worst case (`std::string`).  The blob holds
either a live `std::string` object, the raw bytes of a non-string scalar, or
uninitialized bytes.  We embed the blob as an explicit state (`Blob`) and every
placement-new / destructor-call / `memcpy` / `std::string` member operation the
C++ code performs becomes an explicit step on that state.  Operations on a
`std::string` that the C++ standard only defines when a live string object
exists at the storage location are `Option`-valued here: `none` models
undefined behaviour (or a leak, for placement-new over a live string).
-/

/-- The PVD scalar type enum (`epics::pvData::ScalarType`, used via
`pv/pvIntrospect.h`).  The "no value" state `(ScalarType)-1` of `AnyScalar` is
represented by `Option.none` at the use site, not as an enum member. -/
inductive ScalarType where
  | pvBoolean
  | pvByte
  | pvShort
  | pvInt
  | pvLong
  | pvUByte
  | pvUShort
  | pvUInt
  | pvULong
  | pvFloat
  | pvDouble
  | pvString
  deriving DecidableEq, BEq

/-- A typed scalar value: one carrier per PVD scalar type.  Signed integer
types carry `Int`, unsigned carry `Nat`; `float`/`double` carry their raw bit
pattern as a `Nat` (no claim performs floating-point arithmetic, and same-type
copies are bit-preserving). -/
inductive SVal where
  | vBoolean : Bool → SVal
  | vByte : Int → SVal
  | vShort : Int → SVal
  | vInt : Int → SVal
  | vLong : Int → SVal
  | vUByte : Nat → SVal
  | vUShort : Nat → SVal
  | vUInt : Nat → SVal
  | vULong : Nat → SVal
  | vFloat : Nat → SVal
  | vDouble : Nat → SVal
  | vString : String → SVal
  deriving DecidableEq, BEq

/-- The PVD scalar type tag of a typed value. -/
def svalType : SVal → ScalarType
  | .vBoolean _ => .pvBoolean
  | .vByte _ => .pvByte
  | .vShort _ => .pvShort
  | .vInt _ => .pvInt
  | .vLong _ => .pvLong
  | .vUByte _ => .pvUByte
  | .vUShort _ => .pvUShort
  | .vUInt _ => .pvUInt
  | .vULong _ => .pvULong
  | .vFloat _ => .pvFloat
  | .vDouble _ => .pvDouble
  | .vString _ => .pvString

/-- State of the raw storage `_wrap.blob` of an `AnyScalar`:
either a live `std::string` object with the given contents (`bstr`),
the raw bytes of a non-string scalar value (`braw`),
or bytes with no live object / indeterminate contents (`bnone`). -/
inductive Blob where
  | bstr : String → Blob
  | braw : SVal → Blob
  | bnone : Blob
  deriving DecidableEq, BEq

/-- Does the blob hold a live `std::string` object? -/
def isStrBlob : Blob → Bool
  | .bstr _ => true
  | _ => false

/-- `new (blob) std::string()`: placement-construct an empty string in the
storage.  Placement-new over a live string object would leak that string's
storage, so it is rejected (`none`). -/
def pnewStr : Blob → Option Blob
  | .bstr _ => none
  | _ => some (.bstr "")

/-- `a.swap(b)` on two live `std::string` objects; undefined unless both
storages hold live strings. -/
def strSwap : Blob → Blob → Option (Blob × Blob)
  | .bstr s, .bstr t => some (.bstr t, .bstr s)
  | _, _ => none

/-- Explicit destructor call `str.~string()`: defined only on a live string;
afterwards the storage holds no live object. -/
def strDestroy : Blob → Option Blob
  | .bstr _ => some .bnone
  | _ => none

/-- `temp.swap(_as<string>())` where `temp` is a fresh empty local string:
moves the stored string's contents out, leaving an empty live string behind.
Undefined unless the storage holds a live string. -/
def tempSwapOut : Blob → Option (String × Blob)
  | .bstr s => some (s, .bstr "")
  | _ => none

/-- `temp.swap(_as<string>())` moving the local `temp` contents `s` into the
stored live string (whose previous contents move to the dying local). -/
def tempSwapIn (s : String) : Blob → Option Blob
  | .bstr _ => some (.bstr s)
  | _ => none

/-- `std::string::operator=` applied through `_as<std::string>()`:
defined only when a live string object exists at the destination storage.
Assigning into storage with no live string object is undefined behaviour. -/
def strAssignInto (dst : Blob) (s : String) : Option Blob :=
  match dst with
  | .bstr _ => some (.bstr s)
  | _ => none

/-- Storage state produced by placement-constructing a value `w` in fresh
storage (the templated `AnyScalar(T v)` constructor body `new (_wrap.blob) TT(v)`). -/
def blobOfVal (w : SVal) : Blob :=
  match w with
  | .vString s => .bstr s
  | w => .braw w

/-- Read the storage blob as the type named by the tag, the way
`_as<TT>()` / `castUnsafeV(..., _stype, _wrap.blob)` reinterpret the raw
bytes.  Reading bytes that do not hold a value of the tag's type yields
garbage, modelled as `none`. -/
def readBlob : Option ScalarType → Blob → Option SVal
  | none, _ => none
  | some .pvString, .bstr s => some (.vString s)
  | some t, .braw w => if svalType w = t then some w else none
  | some _, _ => none

/-- The `AnyScalar` object state: the discriminating tag `_stype`
(`none` embeds `(ScalarType)-1`, the "no value" state) and the storage blob
`_wrap.blob`. -/
structure AnyScalar where
  stype : Option ScalarType
  blob : Blob
  deriving DecidableEq, BEq

namespace AnyScalar

/-- The templated constructor `AnyScalar(T v)`: placement-constructs the
storage-mapped value and sets `_stype` from `ScalarTypeID<TT>::value`. -/
def ofSVal (v : SVal) : AnyScalar :=
  ⟨some (svalType v), blobOfVal v⟩

/-- `AnyScalar::type()`. -/
def typeOf (a : AnyScalar) : Option ScalarType :=
  a.stype

/-- `AnyScalar::empty()`: `_stype == (ScalarType)-1`. -/
def empty (a : AnyScalar) : Bool :=
  a.stype.isNone

/-- `explicit operator bool()`: `!empty()`. -/
def toBool (a : AnyScalar) : Bool :=
  !a.empty

/-- Well-formed object state: the representation the blob holds matches the
live tag.  A live string object exists exactly when the tag is `pvString`;
a non-string tag owns raw bytes of exactly that type; the nil state holds no
live string (its bytes may be anything else, including leftovers). -/
def validB (a : AnyScalar) : Bool :=
  match a.stype, a.blob with
  | none, b => !isStrBlob b
  | some .pvString, .bstr _ => true
  | some t, .braw w => decide (svalType w = t ∧ t ≠ .pvString)
  | _, _ => false

/-- The observable stored value: the blob read at the live tag
(`none` in the nil state). -/
def activeVal (a : AnyScalar) : Option SVal :=
  readBlob a.stype a.blob

/-- `AnyScalar::swap`, translated case by case from the nested `switch` on
`(unsigned)_stype` / `(unsigned)o._stype` (cases `-1`, `pvString`, default).
Each branch performs the same sequence of placement-news, string swaps,
destructor calls and `memcpy`s as the C++ code, then the tags are exchanged
(`std::swap(_stype, o._stype)`).  Result `(self, o)` after the call. -/
def swap (x o : AnyScalar) : Option (AnyScalar × AnyScalar) := do
  let (xb, ob) ←
    match x.stype, o.stype with
    | none, none =>
      -- nil <-> nil
      pure (x.blob, o.blob)
    | none, some .pvString => do
      -- nil <-> string
      let b ← pnewStr x.blob
      let (xb, ob) ← strSwap b o.blob
      let ob ← strDestroy ob
      pure (xb, ob)
    | none, some _ =>
      -- nil <-> non-string: memcpy o -> self
      pure (o.blob, o.blob)
    | some .pvString, none => do
      -- string <-> nil
      let b ← pnewStr o.blob
      let (xb, ob) ← strSwap x.blob b
      let xb ← strDestroy xb
      pure (xb, ob)
    | some .pvString, some .pvString => do
      -- string <-> string
      strSwap x.blob o.blob
    | some .pvString, some _ => do
      -- string <-> non-string
      let (temp, xb) ← tempSwapOut x.blob
      let _ ← strDestroy xb
      let ob ← pnewStr o.blob
      let ob ← tempSwapIn temp ob
      pure (o.blob, ob)
    | some _, none =>
      -- non-string <-> nil: memcpy self -> o
      pure (x.blob, x.blob)
    | some _, some .pvString => do
      -- non-string <-> string
      let (temp, ob) ← tempSwapOut o.blob
      let _ ← strDestroy ob
      let xb ← pnewStr x.blob
      let xb ← tempSwapIn temp xb
      pure (xb, x.blob)
    | some _, some _ =>
      -- non-string <-> non-string: std::swap of the storage blobs
      pure (o.blob, x.blob)
  pure (⟨o.stype, xb⟩, ⟨x.stype, ob⟩)

/-- The copy constructor `AnyScalar(const AnyScalar&)`: a string source is
deep-copied by placement-new from the source string (undefined if the tag
says string but no live string exists); any other source has its blob
copied byte-wise. -/
def copy (o : AnyScalar) : Option AnyScalar :=
  match o.stype, o.blob with
  | some .pvString, .bstr s => some ⟨some .pvString, .bstr s⟩
  | some .pvString, _ => none
  | t, b => some ⟨t, b⟩

/-- The destructor `~AnyScalar()`: destroys the stored string when the tag is
`pvString`, otherwise does nothing. -/
def destruct (a : AnyScalar) : Option Unit :=
  if a.stype = some .pvString then (strDestroy a.blob).map (fun _ => ())
  else some ()

/-- `operator=(const AnyScalar&)` by copy-and-swap:
`AnyScalar(o).swap(*this)` followed by destruction of the temporary.
Returns the new value of `*this`. -/
def assign (self o : AnyScalar) : Option AnyScalar := do
  let tmp ← copy o
  let p ← swap tmp self
  let _ ← destruct p.1
  pure p.2

/-- The move constructor `AnyScalar(AnyScalar&&)` (C++11 branch):
copies the tag, then for a string source executes
`_as<std::string>() = std::move(o._as<std::string>())` — a `std::string`
assignment whose destination is the new object's storage, in which no string
object has been constructed (the constructor performs no placement-new) —
and for any other source `memcpy`s the blob; finally sets the source tag to
`(ScalarType)-1`.  Returns `(new object, moved-from source)`. -/
def moveCtor (o : AnyScalar) : Option (AnyScalar × AnyScalar) :=
  match o.stype, o.blob with
  | some .pvString, .bstr s =>
    -- destination storage of the freshly created object is uninitialized
    (strAssignInto .bnone s).map
      (fun nb => (⟨some .pvString, nb⟩, ⟨none, .bstr ""⟩))
  | some .pvString, _ => none
  | t, b => some (⟨t, b⟩, ⟨none, b⟩)

end AnyScalar

/-!
The C++ template-argument layer of `ref<T>()` / `as<T>()` / the constructor:
an argument type `T` is first stripped of `const`
(`epics::pvData::meta::strip_const`), then mapped to its storage type by
`detail::any_storage_type` (which sends `char*` and `const char*` to
`std::string` and is the identity otherwise), and the storage type is mapped
to its tag by `epics::pvData::ScalarTypeID`.
-/

/-- A C++ type usable as the template argument of the `AnyScalar` member
templates, without `const` qualification. -/
inductive CBase where
  | cBoolean
  | cInt8
  | cInt16
  | cInt32
  | cInt64
  | cUInt8
  | cUInt16
  | cUInt32
  | cUInt64
  | cFloat
  | cDouble
  | cString
  | cCharPtr
  | cConstCharPtr
  deriving DecidableEq, BEq

/-- A possibly `const`-qualified C++ template argument type. -/
structure CT where
  base : CBase
  isConst : Bool
  deriving DecidableEq, BEq

/-- `epics::pvData::meta::strip_const`. -/
def stripConst (T : CT) : CBase :=
  T.base

/-- `detail::any_storage_type`: `char*` and `const char*` are stored as
`std::string`; every other type is its own storage type. -/
def anyStorageType : CBase → CBase
  | .cCharPtr => .cString
  | .cConstCharPtr => .cString
  | b => b

/-- `epics::pvData::ScalarTypeID<T>::value`: the PVD tag of a C++ type.
The pointer types have no `ScalarTypeID` specialization (using one is a
compile-time error), hence `none`. -/
def scalarTypeID : CBase → Option ScalarType
  | .cBoolean => some .pvBoolean
  | .cInt8 => some .pvByte
  | .cInt16 => some .pvShort
  | .cInt32 => some .pvInt
  | .cInt64 => some .pvLong
  | .cUInt8 => some .pvUByte
  | .cUInt16 => some .pvUShort
  | .cUInt32 => some .pvUInt
  | .cUInt64 => some .pvULong
  | .cFloat => some .pvFloat
  | .cDouble => some .pvDouble
  | .cString => some .pvString
  | .cCharPtr => none
  | .cConstCharPtr => none

/-- The tag `ScalarTypeID<TT>::value` that `ref<T>()` compares `_stype`
against: `T` stripped of `const`, then storage-mapped. -/
def mappedTag (T : CT) : Option ScalarType :=
  scalarTypeID (anyStorageType (stripConst T))

/-- The canonical C++ type naming a given tag (used to instantiate the member
templates at each supported scalar type). -/
def canonCT (t : ScalarType) : CT :=
  match t with
  | .pvBoolean => ⟨.cBoolean, false⟩
  | .pvByte => ⟨.cInt8, false⟩
  | .pvShort => ⟨.cInt16, false⟩
  | .pvInt => ⟨.cInt32, false⟩
  | .pvLong => ⟨.cInt64, false⟩
  | .pvUByte => ⟨.cUInt8, false⟩
  | .pvUShort => ⟨.cUInt16, false⟩
  | .pvUInt => ⟨.cUInt32, false⟩
  | .pvULong => ⟨.cUInt64, false⟩
  | .pvFloat => ⟨.cFloat, false⟩
  | .pvDouble => ⟨.cDouble, false⟩
  | .pvString => ⟨.cString, false⟩

/-!
The value-conversion layer used by `as<T>()`.  The conversion itself is
`epics::pvData::castUnsafeV` from `pv/typeCast.h`, which is part of the
external pvData library, not of this repository: only its same-type behaviour
(a plain copy) is relied on by any theorem below; the cross-type entries are a
model.
-/

/-- A numeric intermediate for the modelled cross-type conversions:
booleans as 0/1, integers as themselves, float/double as their bit pattern,
strings by decimal parse (0 when unparsable). -/
def toIntRep : SVal → Int
  | .vBoolean b => if b then 1 else 0
  | .vByte i => i
  | .vShort i => i
  | .vInt i => i
  | .vLong i => i
  | .vUByte n => (n : Int)
  | .vUShort n => (n : Int)
  | .vUInt n => (n : Int)
  | .vULong n => (n : Int)
  | .vFloat p => (p : Int)
  | .vDouble p => (p : Int)
  | .vString s => (s.toInt?).getD 0

/-- Wrap an integer into the value range of a `w`-bit signed type
(C-style truncation). -/
def wrapSigned (w : Nat) (i : Int) : Int :=
  (i + 2 ^ (w - 1)) % (2 ^ w : Nat) - 2 ^ (w - 1)

/-- Build a value of the given tag from the numeric intermediate. -/
def ofIntAs : ScalarType → Int → SVal
  | .pvBoolean, i => .vBoolean (i != 0)
  | .pvByte, i => .vByte (wrapSigned 8 i)
  | .pvShort, i => .vShort (wrapSigned 16 i)
  | .pvInt, i => .vInt (wrapSigned 32 i)
  | .pvLong, i => .vLong (wrapSigned 64 i)
  | .pvUByte, i => .vUByte (i % (2 ^ 8 : Nat)).toNat
  | .pvUShort, i => .vUShort (i % (2 ^ 16 : Nat)).toNat
  | .pvUInt, i => .vUInt (i % (2 ^ 32 : Nat)).toNat
  | .pvULong, i => .vULong (i % (2 ^ 64 : Nat)).toNat
  | .pvFloat, i => .vFloat (i % (2 ^ 32 : Nat)).toNat
  | .pvDouble, i => .vDouble (i % (2 ^ 64 : Nat)).toNat
  | .pvString, i => .vString (toString i)

/-- Modelled from the external `pv/typeCast.h` (`castUnsafeV`), which is not
part of this repository: a cast to the stored value's own type copies the
value unchanged (the diagonal of the conversion switch is plain assignment);
cross-type casts go through the numeric intermediate.  Only the same-type
diagonal is load-bearing for the theorems below. -/
def castScalar (tgt : ScalarType) (w : SVal) : SVal :=
  if svalType w = tgt then w
  else ofIntAs tgt (toIntRep w)

/-- The two failure modes of reading an `AnyScalar`:
`badCast` is the thrown `AnyScalar::bad_cast`; `ub` marks reads whose C++
counterpart reinterprets bytes not holding a value of the tag's type
(possible only in states violating `AnyScalar.validB`). -/
inductive CastErr where
  | badCast
  | ub
  deriving DecidableEq, BEq

namespace AnyScalar

/-- `AnyScalar::as<T>()`: throws `bad_cast` when `_stype == (ScalarType)-1`,
otherwise converts the stored value (read at the live tag) to the target tag
`ScalarTypeID<T2>::value` via `castUnsafeV`. -/
def as (a : AnyScalar) (t : ScalarType) : Except CastErr SVal :=
  if a.stype = none then .error .badCast
  else
    match readBlob a.stype a.blob with
    | some w => .ok (castScalar t w)
    | none => .error .ub

/-- `AnyScalar::ref<T>()`: compares `_stype` against
`ScalarTypeID<TT>::value` for the storage-mapped `TT`; throws `bad_cast` on
mismatch, otherwise returns the stored representation directly (`_as<TT>()`),
with no conversion.  `none` for the pointer instantiations models that they
do not compile. -/
def refT (a : AnyScalar) (T : CT) : Option SVal :=
  match mappedTag T with
  | none => none
  | some t =>
    if a.stype = some t then readBlob a.stype a.blob
    else none

/-- Mutation through the reference returned by `ref<T>()`: assigning a new
value of the storage type `TT` through `_as<TT>()` overwrites the stored
representation in place (the tag is untouched). -/
def refSet (a : AnyScalar) (T : CT) (w : SVal) : Option AnyScalar :=
  match mappedTag T with
  | none => none
  | some t =>
    if a.stype = some t then
      if svalType w = t then some ⟨a.stype, blobOfVal w⟩ else none
    else none

end AnyScalar

/-!
Spec-modelled components.  The QSRV timestamp tag transform and the PVA link
severity propagation are described in `src/documentation/qsrvpage.h` (the
latter marked "Not yet implemented"); their implementations are not among the
source files, so they are modelled from the spec's words.
-/

/-- Modelled from the spec: the "Q:time:tag nsec:lsb:k" transform
(spec §4.5, documented at `qsrv_stamp_nslsb` in src/documentation/qsrvpage.h;
the implementing code is not under src/).  The low `k` bits of the
nanoseconds value move, unshifted, into the userTag output; the remaining
high bits stay in the nanoseconds output, unshifted, with the low `k` bits
zeroed.  Returns `(userTag, nanoseconds)`. -/
def stampTagSplit (k ns : Nat) : Nat × Nat :=
  (ns % 2 ^ k, ns - ns % 2 ^ k)

/-- EPICS alarm severity levels; `invalid` is the worst defined level. -/
inductive Severity where
  | noAlarm
  | minor
  | major
  | invalid
  deriving DecidableEq, BEq

/-- Numeric rank of a severity (NO_ALARM=0 … INVALID=3). -/
def sevRank : Severity → Nat
  | .noAlarm => 0
  | .minor => 1
  | .major => 2
  | .invalid => 3

/-- Maximize-severity combination: the worse of the two severities. -/
def sevMax (a b : Severity) : Severity :=
  if sevRank a ≤ sevRank b then b else a

/-- The link severity-propagation mode (`sevr:` option ∈ {false, true, "MSI"},
spec: {off, on, onlyIfInvalid}). -/
inductive SevrMode where
  | off
  | maximize
  | onlyIfInvalid
  deriving DecidableEq, BEq

/-- Modelled from the spec: the `sevr:` link option combining an inbound
remote alarm severity with the local field severity
(spec §4.3, documented at `qsrv_link_sevr` in src/documentation/qsrvpage.h
and there marked "Not yet implemented"; no implementing code is under src/).
`off` leaves the local severity untouched; `maximize` applies the maximize
rule; `onlyIfInvalid` ("MSI") applies the remote severity only when it is
INVALID, the worst defined level. -/
def applySevr (m : SevrMode) (loc rem : Severity) : Severity :=
  match m with
  | .off => loc
  | .maximize => sevMax loc rem
  | .onlyIfInvalid => if rem = .invalid then sevMax loc rem else loc

/-!
A refinement of the storage model for the copy constructor
(`AnyScalar(const AnyScalar&)`): the pure `Blob` model above identifies
strings by value, so it cannot express aliasing.  Here the string storage
carries an identity: a blob holding a string holds the *address* of a heap
cell, placement-new allocates a fresh cell, and `memcpy` copies the address
(two objects `memcpy`d from one another would alias).  The copy constructor's
choice of placement-new over `memcpy` for the string case is exactly what the
deep-copy claim is about.
-/

namespace StrHeap

/-- The string heap: one cell per live `std::string` allocation, addressed by
index. -/
structure Heap where
  cells : List String
  deriving DecidableEq

/-- Allocate a fresh string cell (placement-new of a `std::string` copy);
returns the new heap and the fresh address. -/
def alloc (h : Heap) (s : String) : Heap × Nat :=
  (⟨h.cells ++ [s]⟩, h.cells.length)

/-- Read the string at an address. -/
def readf (h : Heap) (ad : Nat) : Option String :=
  h.cells[ad]?

/-- Overwrite the string at an address (mutation through a reference to the
stored string). -/
def writef (h : Heap) (ad : Nat) (s : String) : Heap :=
  ⟨h.cells.set ad s⟩

/-- Storage blob with string identity: a live string is an address into the
heap. -/
inductive HBlob where
  | hstr : Nat → HBlob
  | hraw : SVal → HBlob
  | hnone : HBlob
  deriving DecidableEq, BEq

/-- Does the blob hold a live string object? -/
def isHStr : HBlob → Bool
  | .hstr _ => true
  | _ => false

/-- `AnyScalar` state in the identity-carrying storage model. -/
structure HAny where
  stype : Option ScalarType
  blob : HBlob
  deriving DecidableEq, BEq

/-- Well-formed state: as `AnyScalar.validB`, and a string address must be a
live heap cell. -/
def validH (h : Heap) (x : HAny) : Bool :=
  match x.stype, x.blob with
  | none, b => !isHStr b
  | some .pvString, .hstr ad => decide (ad < h.cells.length)
  | some t, .hraw w => decide (svalType w = t ∧ t ≠ .pvString)
  | _, _ => false

/-- The address of the string held by an object, if any. -/
def strAddr (x : HAny) : Option Nat :=
  match x.blob with
  | .hstr ad => some ad
  | _ => none

/-- Read the string held by an object through its storage. -/
def readStr (h : Heap) (x : HAny) : Option String :=
  (strAddr x).bind (readf h)

/-- Mutate the string held by an object through a reference to it. -/
def setStr (h : Heap) (x : HAny) (s : String) : Option Heap :=
  (strAddr x).map (fun ad => writef h ad s)

/-- The copy constructor `AnyScalar(const AnyScalar&)` in the
identity-carrying model: a string source is deep-copied —
`new (_wrap.blob) std::string(o._as<std::string>())` allocates a fresh cell
holding a copy of the source string (undefined if the tag says string but no
live string exists); any other source has its blob copied byte-wise
(`memcpy`), which for a (tag-violating) string blob would copy the address. -/
def copyH (h : Heap) (o : HAny) : Option (Heap × HAny) :=
  match o.stype, o.blob with
  | some .pvString, .hstr ad =>
    (readf h ad).map (fun s =>
      let p := alloc h s
      (p.1, ⟨some .pvString, .hstr p.2⟩))
  | some .pvString, _ => none
  | t, b => some (h, ⟨t, b⟩)

end StrHeap

/-!  Helper lemmas.  -/

/-- A well-formed `AnyScalar` is in one of three shapes: nil (with no live
string in its storage), string-tagged with a live string, or tagged with a
non-string type whose raw bytes hold a value of exactly that type. -/
theorem valid_shape (st : Option ScalarType) (bl : Blob)
    (hv : (AnyScalar.mk st bl).validB = true) :
    (st = none ∧ (bl = .bnone ∨ ∃ w, bl = .braw w)) ∨
    (∃ s, st = some .pvString ∧ bl = .bstr s) ∨
    (∃ t w, st = some t ∧ bl = .braw w ∧ svalType w = t ∧ t ≠ .pvString) := by
  cases st with
  | none => cases bl <;> simp_all [AnyScalar.validB, isStrBlob]
  | some t => cases bl <;> cases t <;> simp_all [AnyScalar.validB, isStrBlob]

/-- Instantiating `canonCT` recovers the tag through the strip/storage/ID
mapping chain. -/
theorem mappedTag_canonCT (t : ScalarType) : mappedTag (canonCT t) = some t := by
  cases t <;> rfl

/-- `mappedTag` is defined for every template argument type (the pointer
types are storage-mapped to `std::string` first). -/
theorem mappedTag_isSome (T : CT) : ∃ t, mappedTag T = some t := by
  obtain ⟨b, c⟩ := T
  cases b <;> exact ⟨_, rfl⟩

/-- Reading freshly constructed storage at the constructed tag recovers the
constructed value. -/
theorem readBlob_blobOfVal (v : SVal) :
    readBlob (some (svalType v)) (blobOfVal v) = some v := by
  cases v <;> simp [readBlob, blobOfVal, svalType]

/-- The same-type diagonal of the conversion is the identity. -/
theorem castScalar_same (v : SVal) : castScalar (svalType v) v = v := by
  simp [castScalar]

/-- A freshly constructed `AnyScalar` is well-formed. -/
theorem validB_ofSVal (v : SVal) : (AnyScalar.ofSVal v).validB = true := by
  cases v <;> simp [AnyScalar.ofSVal, AnyScalar.validB, blobOfVal, svalType]

/-- `swap` on two well-formed operands is defined (every string operation it
performs acts on a live string, every placement-new on storage without one),
leaves both operands well-formed, and exchanges their tags and observable
values. -/
theorem swap_ok (a b : AnyScalar) (ha : a.validB = true) (hb : b.validB = true) :
    ∃ p, a.swap b = some p ∧ p.1.validB = true ∧ p.2.validB = true ∧
      p.1.stype = b.stype ∧ p.2.stype = a.stype ∧
      p.1.activeVal = b.activeVal ∧ p.2.activeVal = a.activeVal := by
  obtain ⟨sta, ba⟩ := a
  obtain ⟨stb, bb⟩ := b
  rcases valid_shape sta ba ha with ⟨h1, h2 | ⟨w, h2⟩⟩ | ⟨s, h1, h2⟩ | ⟨t, w, h1, h2, hw, ht⟩ <;>
    rcases valid_shape stb bb hb with ⟨g1, g2 | ⟨w2, g2⟩⟩ | ⟨s2, g1, g2⟩ | ⟨t2, w2, g1, g2, gw, gt⟩ <;>
    subst_vars <;>
    simp_all [AnyScalar.swap, AnyScalar.validB, AnyScalar.activeVal, readBlob,
      pnewStr, strSwap, strDestroy, tempSwapOut, tempSwapIn, isStrBlob]

/-- The copy constructor on a well-formed source is defined, yields a
well-formed object, and preserves the tag and observable value. -/
theorem copy_ok (a : AnyScalar) (ha : a.validB = true) :
    ∃ c, a.copy = some c ∧ c.validB = true ∧ c.stype = a.stype ∧
      c.activeVal = a.activeVal := by
  obtain ⟨sta, ba⟩ := a
  rcases valid_shape sta ba ha with ⟨h1, h2 | ⟨w, h2⟩⟩ | ⟨s, h1, h2⟩ | ⟨t, w, h1, h2, hw, ht⟩ <;>
    subst_vars <;>
    simp_all [AnyScalar.copy, AnyScalar.validB, AnyScalar.activeVal, readBlob, isStrBlob]

/-- The destructor is defined on every well-formed object (when the tag says
string, a live string is there to destroy). -/
theorem destruct_ok (a : AnyScalar) (ha : a.validB = true) :
    a.destruct = some () := by
  obtain ⟨sta, ba⟩ := a
  rcases valid_shape sta ba ha with ⟨h1, h2 | ⟨w, h2⟩⟩ | ⟨s, h1, h2⟩ | ⟨t, w, h1, h2, hw, ht⟩ <;>
    subst_vars <;>
    simp_all [AnyScalar.destruct, strDestroy]

/-!  Claim theorems (simple components first).  -/

/-- C1: constructing an `AnyScalar` from a value of any supported scalar type
and reading it back with `as` at that type returns the original value, and
mutating the stored representation through the reference obtained by `ref`
is visible in a subsequent `as` read on the same object. -/
theorem C1_roundtrip_and_ref_mutation (v w : SVal) (hw : svalType w = svalType v) :
    (AnyScalar.ofSVal v).as (svalType v) = .ok v ∧
    ((AnyScalar.ofSVal v).refSet (canonCT (svalType v)) w).bind
      (fun a2 => (a2.as (svalType v)).toOption) = some w := by
  constructor
  · simp [AnyScalar.as, AnyScalar.ofSVal, readBlob_blobOfVal, castScalar_same]
  · simp only [AnyScalar.refSet, mappedTag_canonCT, AnyScalar.ofSVal, hw,
      if_true, Option.bind_some, Option.some_bind]
    simp only [← hw, AnyScalar.as]
    simp [readBlob_blobOfVal, castScalar_same, Except.toOption]

/-- C4: `as` fails with `bad_cast` exactly when the container is nil; on any
well-formed non-empty container it performs a conversion and succeeds, even
when a stored string is read at a numeric type. -/
theorem C4_as_badcast_iff_nil (a : AnyScalar) (t : ScalarType) (ha : a.validB = true) :
    (a.as t = .error .badCast ↔ a.empty = true) ∧
    (a.empty = false → ((a.as t).toOption).isSome = true) := by
  obtain ⟨sta, ba⟩ := a
  rcases valid_shape sta ba ha with ⟨h1, h2 | ⟨w, h2⟩⟩ | ⟨s, h1, h2⟩ | ⟨tt, w, h1, h2, hw2, ht2⟩ <;>
    subst_vars <;>
    simp_all [AnyScalar.as, AnyScalar.empty, readBlob, Except.toOption]

/-- C5: `ref` fails with `bad_cast` exactly when the live tag differs from
the tag mapped from the template argument (after stripping `const` and
mapping `char*`/`const char*` to string); on an exact match it returns the
stored representation directly, with no conversion. -/
theorem C5_ref_strict (a : AnyScalar) (T : CT) (ha : a.validB = true) :
    (a.refT T = none ↔ a.stype ≠ mappedTag T) ∧
    (a.stype = mappedTag T → a.refT T = a.activeVal) := by
  obtain ⟨t, ht⟩ := mappedTag_isSome T
  rcases eq_or_ne a.stype (mappedTag T) with he | he
  · have hst : a.stype = some t := he.trans ht
    have hval : ∃ w, a.activeVal = some w := by
      obtain ⟨sta, ba⟩ := a
      rcases valid_shape sta ba ha with ⟨h1, h2 | ⟨w, h2⟩⟩ | ⟨s, h1, h2⟩ | ⟨tt, w, h1, h2, hw2, ht2⟩ <;>
        subst_vars <;> simp_all [AnyScalar.activeVal, readBlob]
    obtain ⟨w, hwv⟩ := hval
    have href : a.refT T = a.activeVal := by
      simp [AnyScalar.refT, ht, hst, AnyScalar.activeVal]
    refine ⟨?_, fun _ => href⟩
    rw [href, hwv]
    simp [he]
  · have hst : a.stype ≠ some t := fun hc => he (hc.trans ht.symm)
    have href : a.refT T = none := by
      simp [AnyScalar.refT, ht, hst]
    simp [href, he]

/-- C2: `swap` is total over every combination of nil/string/non-string
operand tags: it is defined, leaves both operands well-formed (in particular
no live string escapes ownership of its tag, so none leaks), and each operand
ends up holding the other's former tag and value; assignment, implemented by
copy-and-swap plus destruction of the temporary, is likewise defined and
leaves the target a well-formed copy of the source. -/
theorem C2_swap_assign_total (a b : AnyScalar) (ha : a.validB = true) (hb : b.validB = true) :
    ((a.swap b).map (fun p =>
        (p.1.validB, p.2.validB, p.1.stype, p.2.stype, p.1.activeVal, p.2.activeVal)))
      = some (true, true, b.stype, a.stype, b.activeVal, a.activeVal) ∧
    ((a.assign b).map (fun c => (c.validB, c.stype, c.activeVal)))
      = some (true, b.stype, b.activeVal) := by
  obtain ⟨p, hp, v1, v2, s1, s2, av1, av2⟩ := swap_ok a b ha hb
  refine ⟨by simp [hp, v1, v2, s1, s2, av1, av2], ?_⟩
  obtain ⟨c, hc, cv, cs, cav⟩ := copy_ok b hb
  obtain ⟨q, hq, qv1, qv2, qs1, qs2, qa1, qa2⟩ := swap_ok c a cv ha
  have hd := destruct_ok q.1 qv1
  simp [AnyScalar.assign, hc, hq, hd, qv2, qs2, qa2, cs, cav]

/-- C3: `swap` is its own inverse for every pair of tags including nil:
swapping twice restores both operands' original tags and observable values. -/
theorem C3_swap_involution (a b : AnyScalar) (ha : a.validB = true) (hb : b.validB = true) :
    ((a.swap b).bind (fun p => p.1.swap p.2)).map
        (fun q => (q.1.stype, q.1.activeVal, q.2.stype, q.2.activeVal))
      = some (a.stype, a.activeVal, b.stype, b.activeVal) := by
  obtain ⟨p, hp, v1, v2, s1, s2, a1, a2⟩ := swap_ok a b ha hb
  obtain ⟨q, hq, w1, w2, t1, t2, b1, b2⟩ := swap_ok p.1 p.2 v1 v2
  simp [hp, hq, t1, t2, b1, b2, s1, s2, a1, a2]

/-- A well-formed heap-model `AnyScalar` is nil, string-tagged with a live
heap cell, or tagged non-string with matching raw bytes. -/
theorem validH_shape (h : StrHeap.Heap) (st : Option ScalarType) (bl : StrHeap.HBlob)
    (hv : StrHeap.validH h ⟨st, bl⟩ = true) :
    (st = none ∧ (bl = .hnone ∨ ∃ w, bl = .hraw w)) ∨
    (∃ ad, st = some .pvString ∧ bl = .hstr ad ∧ ad < h.cells.length) ∨
    (∃ t w, st = some t ∧ bl = .hraw w ∧ svalType w = t ∧ t ≠ .pvString) := by
  cases st with
  | none => cases bl <;> simp_all [StrHeap.validH, StrHeap.isHStr]
  | some t => cases bl <;> cases t <;> simp_all [StrHeap.validH, StrHeap.isHStr]

/-- C6: the copy constructor preserves the single-representation invariant
(the copy is well-formed with the source's tag), and copying a string-tagged
object deep-copies the string: the copy holds a distinct string object with
equal contents, and mutating the string held by either object leaves the
string read through the other unchanged. -/
theorem C6_copy_invariant_deep (h : StrHeap.Heap) (o : StrHeap.HAny) (s2 : String)
    (hv : StrHeap.validH h o = true) :
    ((StrHeap.copyH h o).map (fun p => (StrHeap.validH p.1 p.2, p.2.stype)))
      = some (true, o.stype) ∧
    (o.stype = some .pvString →
      ((StrHeap.copyH h o).map
          (fun p => decide (StrHeap.strAddr p.2 ≠ StrHeap.strAddr o)) = some true) ∧
      ((StrHeap.copyH h o).map (fun p => StrHeap.readStr p.1 p.2)
          = some (StrHeap.readStr h o)) ∧
      ((StrHeap.copyH h o).bind
          (fun p => (StrHeap.setStr p.1 p.2 s2).map (fun h2 => StrHeap.readStr h2 o))
          = some (StrHeap.readStr h o)) ∧
      ((StrHeap.copyH h o).bind
          (fun p => (StrHeap.setStr p.1 o s2).map (fun h2 => StrHeap.readStr h2 p.2))
          = some (StrHeap.readStr h o))) := by
  obtain ⟨sto, blo⟩ := o
  rcases validH_shape h sto blo hv with ⟨h1, h2 | ⟨w, h2⟩⟩ | ⟨ad, h1, h2, hlt⟩ | ⟨t, w, h1, h2, hw2, ht2⟩ <;>
    subst_vars
  · simp [StrHeap.copyH, StrHeap.validH, StrHeap.isHStr]
  · simp_all [StrHeap.copyH, StrHeap.validH, StrHeap.isHStr]
  · -- string-tagged source: fresh cell, distinct address, non-interference
    set s := h.cells.get ⟨ad, hlt⟩ with hsd
    have hs2 : h.cells[ad]? = some s := by
      simp [List.getElem?_eq_getElem hlt, hsd]
    have hs : StrHeap.readf h ad = some s := hs2
    have hne : h.cells.length ≠ ad := by omega
    have hcopy : StrHeap.copyH h ⟨some .pvString, .hstr ad⟩
        = some (⟨h.cells ++ [s]⟩, ⟨some .pvString, .hstr h.cells.length⟩) := by
      simp [StrHeap.copyH, hs, StrHeap.alloc]
    have hreadOld : StrHeap.readStr h ⟨some .pvString, .hstr ad⟩ = some s := by
      simp [StrHeap.readStr, StrHeap.strAddr, hs]
    have hcat : (h.cells ++ [s])[h.cells.length]? = some s :=
      List.getElem?_concat_length h.cells s
    have hleft : (h.cells ++ [s])[ad]? = h.cells[ad]? :=
      List.getElem?_append_left hlt
    refine ⟨?_, fun _ => ⟨?_, ?_, ?_, ?_⟩⟩
    · simp [hcopy, StrHeap.validH, List.length_append]
    · simp [hcopy, StrHeap.strAddr]
      omega
    · rw [hcopy, hreadOld]
      simp [StrHeap.readStr, StrHeap.strAddr, StrHeap.readf, hcat]
    · rw [hcopy, hreadOld]
      simp [StrHeap.setStr, StrHeap.strAddr, StrHeap.writef, StrHeap.readStr,
        StrHeap.readf]
      rw [List.getElem?_append_left hlt]
      exact hs2
    · rw [hcopy, hreadOld]
      simp [StrHeap.setStr, StrHeap.strAddr, StrHeap.writef, StrHeap.readStr,
        StrHeap.readf]
      rw [List.getElem_set_ne (fun hc => hne hc.symm)]
      exact List.getElem_concat_length h.cells s h.cells.length rfl (by simp)
  · simp_all [StrHeap.copyH, StrHeap.validH]

/-- C7: an `AnyScalar` converts to boolean `false` in conditional contexts
exactly when it is in the nil state, and any constructed value — including a
zero of any scalar type — is non-empty and converts to `true`. -/
theorem C7_bool_iff_empty (a : AnyScalar) (v : SVal) :
    (a.toBool = false ↔ a.empty = true) ∧
    (AnyScalar.ofSVal v).toBool = true ∧
    (AnyScalar.ofSVal v).empty = false := by
  refine ⟨?_, ?_, ?_⟩
  · simp [AnyScalar.toBool]
  · simp [AnyScalar.toBool, AnyScalar.empty, AnyScalar.ofSVal]
  · simp [AnyScalar.empty, AnyScalar.ofSVal]

/-- C8: the timestamp tag transform with bit-width `k` puts the low `k` bits
of the nanoseconds, unshifted, into the tag output and zeroes them in the
nanoseconds output, leaving the high bits unshifted; `nsec:lsb:20` on
`0x12345678` yields tag `0x45678` and nanoseconds `0x12300000`, and `k = 0`
is a no-op. -/
theorem C8_stamp_split (k ns : Nat) (hk : k ≤ 32) :
    stampTagSplit 20 0x12345678 = (0x45678, 0x12300000) ∧
    stampTagSplit 0 ns = (0, ns) ∧
    (stampTagSplit k ns).1 = ns % 2 ^ k ∧
    (stampTagSplit k ns).2 % 2 ^ k = 0 ∧
    (stampTagSplit k ns).1 + (stampTagSplit k ns).2 = ns ∧
    (stampTagSplit k ns).2 / 2 ^ k = ns / 2 ^ k := by
  have hpos : 0 < 2 ^ k := Nat.pos_pow_of_pos k (by omega)
  have hdm : 2 ^ k * (ns / 2 ^ k) + ns % 2 ^ k = ns := Nat.div_add_mod ns (2 ^ k)
  have e2 : (stampTagSplit k ns).2 = 2 ^ k * (ns / 2 ^ k) := by
    simp only [stampTagSplit]
    omega
  refine ⟨by decide, ?_, rfl, ?_, ?_, ?_⟩
  · simp [stampTagSplit, Nat.mod_one]
  · simp [e2, Nat.mul_mod_right]
  · simp only [stampTagSplit]
    have := Nat.mod_le ns (2 ^ k)
    omega
  · rw [e2, Nat.mul_div_cancel_left _ hpos]

/-- C9: with severity propagation enabled the inbound remote severity is
combined with the local severity by the maximize rule; `onlyIfInvalid`
applies the remote severity only when it is INVALID (the worst defined
level) and otherwise leaves the local severity untouched. -/
theorem C9_sevr_maximize (loc rem : Severity) :
    applySevr .off loc rem = loc ∧
    applySevr .maximize loc rem = sevMax loc rem ∧
    sevRank (sevMax loc rem) = max (sevRank loc) (sevRank rem) ∧
    applySevr .onlyIfInvalid loc .invalid = sevMax loc .invalid ∧
    applySevr .onlyIfInvalid loc .noAlarm = loc ∧
    applySevr .onlyIfInvalid loc .minor = loc ∧
    applySevr .onlyIfInvalid loc .major = loc := by
  cases loc <;> cases rem <;> decide

/-- C10: evaluation of the move constructor.  On a string-tagged source the
translated constructor body is undefined — it `std::string`-assigns into the
new object's storage although no string object was placement-constructed
there — while on a non-string source it transfers the tag and value and
leaves the source nil. -/
theorem C10_moveCtor_eval :
    AnyScalar.moveCtor (AnyScalar.ofSVal (SVal.vString "x")) = none ∧
    (AnyScalar.moveCtor (AnyScalar.ofSVal (SVal.vInt 5))).map
      (fun p => (p.1.stype, p.1.activeVal, p.2.empty))
      = some (some .pvInt, some (SVal.vInt 5), true) := by
  constructor
  · rfl
  · rfl

/-!  Witnesses: each applies its claim theorem at a concrete input.  -/

/-- Witness for C1 at the 32-bit integer type, value 5, mutated to 7. -/
theorem C1_witness :
    svalType (SVal.vInt 7) = svalType (SVal.vInt 5) ∧
    ((AnyScalar.ofSVal (SVal.vInt 5)).as (svalType (SVal.vInt 5)) = .ok (SVal.vInt 5) ∧
      ((AnyScalar.ofSVal (SVal.vInt 5)).refSet (canonCT (svalType (SVal.vInt 5)))
          (SVal.vInt 7)).bind
        (fun a2 => (a2.as (svalType (SVal.vInt 5))).toOption) = some (SVal.vInt 7)) :=
  ⟨rfl, C1_roundtrip_and_ref_mutation (SVal.vInt 5) (SVal.vInt 7) rfl⟩

/-- Witness for C2 at a string-tagged/nil operand pair. -/
theorem C2_witness :
    (AnyScalar.ofSVal (SVal.vString "pv")).validB = true ∧
    (AnyScalar.mk none Blob.bnone).validB = true ∧
    ((((AnyScalar.ofSVal (SVal.vString "pv")).swap (AnyScalar.mk none Blob.bnone)).map
        (fun p => (p.1.validB, p.2.validB, p.1.stype, p.2.stype, p.1.activeVal, p.2.activeVal)))
      = some (true, true, (AnyScalar.mk none Blob.bnone).stype,
          (AnyScalar.ofSVal (SVal.vString "pv")).stype,
          (AnyScalar.mk none Blob.bnone).activeVal,
          (AnyScalar.ofSVal (SVal.vString "pv")).activeVal) ∧
      (((AnyScalar.ofSVal (SVal.vString "pv")).assign (AnyScalar.mk none Blob.bnone)).map
          (fun c => (c.validB, c.stype, c.activeVal)))
        = some (true, (AnyScalar.mk none Blob.bnone).stype,
            (AnyScalar.mk none Blob.bnone).activeVal)) :=
  ⟨rfl, rfl,
    C2_swap_assign_total (AnyScalar.ofSVal (SVal.vString "pv"))
      (AnyScalar.mk none Blob.bnone) rfl rfl⟩

/-- Witness for C3 at a non-string/string operand pair. -/
theorem C3_witness :
    (AnyScalar.ofSVal (SVal.vInt 3)).validB = true ∧
    (AnyScalar.ofSVal (SVal.vString "q")).validB = true ∧
    (((AnyScalar.ofSVal (SVal.vInt 3)).swap (AnyScalar.ofSVal (SVal.vString "q"))).bind
        (fun p => p.1.swap p.2)).map
        (fun q => (q.1.stype, q.1.activeVal, q.2.stype, q.2.activeVal))
      = some ((AnyScalar.ofSVal (SVal.vInt 3)).stype,
          (AnyScalar.ofSVal (SVal.vInt 3)).activeVal,
          (AnyScalar.ofSVal (SVal.vString "q")).stype,
          (AnyScalar.ofSVal (SVal.vString "q")).activeVal) :=
  ⟨rfl, rfl,
    C3_swap_involution (AnyScalar.ofSVal (SVal.vInt 3))
      (AnyScalar.ofSVal (SVal.vString "q")) rfl rfl⟩

/-- Witness for C4: a stored string read at a numeric type converts rather
than failing with `bad_cast`. -/
theorem C4_witness :
    (AnyScalar.ofSVal (SVal.vString "abc")).validB = true ∧
    (((AnyScalar.ofSVal (SVal.vString "abc")).as ScalarType.pvInt
        = Except.error CastErr.badCast
      ↔ (AnyScalar.ofSVal (SVal.vString "abc")).empty = true) ∧
     ((AnyScalar.ofSVal (SVal.vString "abc")).empty = false →
        (((AnyScalar.ofSVal (SVal.vString "abc")).as ScalarType.pvInt).toOption).isSome
          = true)) :=
  ⟨rfl, C4_as_badcast_iff_nil (AnyScalar.ofSVal (SVal.vString "abc")) ScalarType.pvInt rfl⟩

/-- Witness for C5 at the `const char*` instantiation (storage-mapped to
string) on a string-tagged object. -/
theorem C5_witness :
    (AnyScalar.ofSVal (SVal.vString "s")).validB = true ∧
    (((AnyScalar.ofSVal (SVal.vString "s")).refT (CT.mk CBase.cConstCharPtr false) = none
      ↔ (AnyScalar.ofSVal (SVal.vString "s")).stype
          ≠ mappedTag (CT.mk CBase.cConstCharPtr false)) ∧
     ((AnyScalar.ofSVal (SVal.vString "s")).stype = mappedTag (CT.mk CBase.cConstCharPtr false) →
        (AnyScalar.ofSVal (SVal.vString "s")).refT (CT.mk CBase.cConstCharPtr false)
          = (AnyScalar.ofSVal (SVal.vString "s")).activeVal)) :=
  ⟨rfl, C5_ref_strict (AnyScalar.ofSVal (SVal.vString "s"))
    (CT.mk CBase.cConstCharPtr false) rfl⟩

/-- Witness for C6 on a one-cell heap with a string-tagged object. -/
theorem C6_witness :
    StrHeap.validH (StrHeap.Heap.mk ["abc"])
      (StrHeap.HAny.mk (some ScalarType.pvString) (StrHeap.HBlob.hstr 0)) = true ∧
    (((StrHeap.copyH (StrHeap.Heap.mk ["abc"])
          (StrHeap.HAny.mk (some ScalarType.pvString) (StrHeap.HBlob.hstr 0))).map
        (fun p => (StrHeap.validH p.1 p.2, p.2.stype)))
      = some (true, (StrHeap.HAny.mk (some ScalarType.pvString) (StrHeap.HBlob.hstr 0)).stype) ∧
     ((StrHeap.HAny.mk (some ScalarType.pvString) (StrHeap.HBlob.hstr 0)).stype
        = some .pvString →
      ((StrHeap.copyH (StrHeap.Heap.mk ["abc"])
            (StrHeap.HAny.mk (some ScalarType.pvString) (StrHeap.HBlob.hstr 0))).map
          (fun p => decide (StrHeap.strAddr p.2
            ≠ StrHeap.strAddr (StrHeap.HAny.mk (some ScalarType.pvString) (StrHeap.HBlob.hstr 0))))
        = some true) ∧
      ((StrHeap.copyH (StrHeap.Heap.mk ["abc"])
            (StrHeap.HAny.mk (some ScalarType.pvString) (StrHeap.HBlob.hstr 0))).map
          (fun p => StrHeap.readStr p.1 p.2)
        = some (StrHeap.readStr (StrHeap.Heap.mk ["abc"])
            (StrHeap.HAny.mk (some ScalarType.pvString) (StrHeap.HBlob.hstr 0)))) ∧
      ((StrHeap.copyH (StrHeap.Heap.mk ["abc"])
            (StrHeap.HAny.mk (some ScalarType.pvString) (StrHeap.HBlob.hstr 0))).bind
          (fun p => (StrHeap.setStr p.1 p.2 "zz").map
            (fun h2 => StrHeap.readStr h2
              (StrHeap.HAny.mk (some ScalarType.pvString) (StrHeap.HBlob.hstr 0))))
        = some (StrHeap.readStr (StrHeap.Heap.mk ["abc"])
            (StrHeap.HAny.mk (some ScalarType.pvString) (StrHeap.HBlob.hstr 0)))) ∧
      ((StrHeap.copyH (StrHeap.Heap.mk ["abc"])
            (StrHeap.HAny.mk (some ScalarType.pvString) (StrHeap.HBlob.hstr 0))).bind
          (fun p => (StrHeap.setStr p.1
              (StrHeap.HAny.mk (some ScalarType.pvString) (StrHeap.HBlob.hstr 0)) "zz").map
            (fun h2 => StrHeap.readStr h2 p.2))
        = some (StrHeap.readStr (StrHeap.Heap.mk ["abc"])
            (StrHeap.HAny.mk (some ScalarType.pvString) (StrHeap.HBlob.hstr 0)))))) :=
  ⟨by decide,
    C6_copy_invariant_deep (StrHeap.Heap.mk ["abc"])
      (StrHeap.HAny.mk (some ScalarType.pvString) (StrHeap.HBlob.hstr 0)) "zz" (by decide)⟩

/-- Witness for C8 at bit-width 20 and nanoseconds `0x12345678`. -/
theorem C8_witness :
    20 ≤ 32 ∧
    (stampTagSplit 20 0x12345678 = (0x45678, 0x12300000) ∧
     stampTagSplit 0 0x12345678 = (0, 0x12345678) ∧
     (stampTagSplit 20 0x12345678).1 = 0x12345678 % 2 ^ 20 ∧
     (stampTagSplit 20 0x12345678).2 % 2 ^ 20 = 0 ∧
     (stampTagSplit 20 0x12345678).1 + (stampTagSplit 20 0x12345678).2 = 0x12345678 ∧
     (stampTagSplit 20 0x12345678).2 / 2 ^ 20 = 0x12345678 / 2 ^ 20) :=
  ⟨by decide, C8_stamp_split 20 0x12345678 (by decide)⟩
